import Mathlib

/-!
Verification development for the DRUIDS-MCP backend.

The definitions below are a shallow embedding of the TypeScript sources:
  * the session-scoped agent cache (`getChatEngine`, the eviction timer
    callback `evictionCheck`, `queryIndex`, `streamQueryIndex` and the two
    HTTP handlers) from the main server file;
  * the MCP channel singleton (`mcpConnect`, `mcpDisconnect`, `isReady`)
    from `backend/mcp-client.ts`;
  * the two agent-callable tool adapters (`listComponentsCall`,
    `getComponentPropsCall`) from `backend/mcp-tools.ts`;
  * the MCP server tool `getDruidsComponentProps` from
    `mcp/tools/get-druids-component-props.ts`.

Machine time is modelled as `Nat` milliseconds.  JavaScript `Map`s are
modelled as functions `String → Option α` (`Store`); the external model
call is a deterministic stub parameter; remote calls and thrown errors are
`Except String` values.
-/

namespace Druids

/-- A JavaScript `Map<string, α>` restricted to the operations the code
uses (`get`, `set`, `delete`, `has`). -/
abbrev Store (α : Type) : Type := String → Option α

def Store.empty {α : Type} : Store α := fun _ => none

def Store.get {α : Type} (m : Store α) (k : String) : Option α := m k

def Store.set {α : Type} (m : Store α) (k : String) (v : α) : Store α :=
  fun q => if q = k then some v else m q

def Store.del {α : Type} (m : Store α) (k : String) : Store α :=
  fun q => if q = k then none else m q

@[simp] theorem Store.get_empty {α : Type} (k : String) :
    Store.get (Store.empty : Store α) k = none := rfl

@[simp] theorem Store.get_set_self {α : Type} (m : Store α) (k : String) (v : α) :
    Store.get (Store.set m k v) k = some v := by
  simp [Store.get, Store.set]

theorem Store.get_set_of_ne {α : Type} (m : Store α) (k q : String) (v : α)
    (h : q ≠ k) : Store.get (Store.set m k v) q = Store.get m q := by
  simp [Store.get, Store.set, h]

@[simp] theorem Store.get_del_self {α : Type} (m : Store α) (k : String) :
    Store.get (Store.del m k) k = none := by
  simp [Store.get, Store.del]

theorem Store.get_del_of_ne {α : Type} (m : Store α) (k q : String)
    (h : q ≠ k) : Store.get (Store.del m k) q = Store.get m q := by
  simp [Store.get, Store.del, h]

/-! ## MCP channel (`backend/mcp-client.ts`) -/

/-- Observable state of the `MCPClient` singleton: the `isConnected` flag and
whether `this.client` is non-null (`clientSet`).  `transport` always moves
together with `client`, so it is not tracked separately. -/
structure MCPState where
  isConnected : Bool
  clientSet : Bool
deriving Repr, DecidableEq

/-- `MCPClient.connect()`.  No-op when already connected; otherwise the
transport and client objects are constructed (`clientSet := true`) and the
handshake either succeeds (oracle `connectSucceeds`) or throws, which the
method re-throws after logging.  Returns the state alongside the thrown-or-ok
outcome. -/
def mcpConnect (connectSucceeds : Bool) (s : MCPState) :
    MCPState × Except String Unit :=
  if s.isConnected then (s, Except.ok ())
  else if connectSucceeds then
    ({ isConnected := true, clientSet := true }, Except.ok ())
  else
    ({ isConnected := false, clientSet := true },
     Except.error ("Failed to connect MCP client"))

/-- `MCPClient.disconnect()`.  Returns early when not connected or the client
is null; otherwise awaits `client.close()` (its outcome is the `closeResult`
argument) and only on success nulls the fields and clears `isConnected`.  The
`catch` branch merely logs, so a teardown error is never propagated — the
function is total — but it also leaves the state untouched. -/
def mcpDisconnect (closeResult : Except String Unit) (s : MCPState) : MCPState :=
  if !s.isConnected || !s.clientSet then s
  else
    match closeResult with
    | Except.ok _ => { isConnected := false, clientSet := false }
    | Except.error _ => s

/-- `MCPClient.isReady()`: pure read of the `isConnected` flag. -/
def isReady (s : MCPState) : Bool := s.isConnected

/-! ## MCP server tool (`mcp/tools/get-druids-component-props.ts`) -/

/-- The raw `Prop` metadata record consumed by the MCP server tool.  Optional
TypeScript fields are `Option`s. -/
structure RawProp where
  name : String
  type : String
  required : Option Bool
  defaultValue : Option String
  description : Option String
  possibleValues : Option (List String)
deriving Repr, DecidableEq

/-- AI-friendly prop shape produced by `mapPropToAIFriendly`. -/
structure AIFriendlyProp where
  name : String
  type : String
  required : Option Bool
  defaultValue : Option String
  description : Option String
  possibleValues : Option (List String)
deriving Repr, DecidableEq

/-- Per-component result of the props lookup.  In JSON the `notFound` key is
either absent or `true`; absence is modelled as `false`. -/
structure AIFriendlyComponentProps where
  name : String
  props : Option (List AIFriendlyProp)
  notFound : Bool
deriving Repr, DecidableEq

/-- An entry of the DRUIDS app map, as read by the props tool: its `label`
and its `props` array, which may be absent. -/
structure AppMapItem where
  label : String
  props : Option (List RawProp)
deriving Repr, DecidableEq

/-- `mapPropToAIFriendly`: copies `name` and `type`, copies `required` and
`defaultValue` when defined, copies `description` only when truthy (so an
empty string is dropped), and copies `possibleValues` when defined (an array
is always truthy). -/
def mapPropToAIFriendly (p : RawProp) : AIFriendlyProp :=
  { name := p.name
  , type := p.type
  , required := p.required
  , defaultValue := p.defaultValue
  , description :=
      match p.description with
      | some s => if s = "" then none else some s
      | none => none
  , possibleValues := p.possibleValues }

/-- The last app-map item whose `label` equals `name`, if any: the loop over
`componentMap` overwrites `found[label]` on every match, so the final write
is the last matching item's. -/
def lastLabelled (appMap : List AppMapItem) (name : String) : Option AppMapItem :=
  match appMap with
  | [] => none
  | item :: rest =>
    match lastLabelled rest name with
    | some r => some r
    | none => if item.label = name then some item else none

/-- The `found` record built by the loop over `componentMap`, read back at a
requested name: the `props` of the last matching item (which may itself be
absent), or absent when no item matches.  The `nameSet` guard in the source
only skips writes for labels never looked up, so for requested names the
lookup is exactly this. -/
def foundProps (appMap : List AppMapItem) (name : String) : Option (List RawProp) :=
  (lastLabelled appMap name).bind (fun item => item.props)

/-- The `names.map(...)` result formatter of `getDruidsComponentProps`: a
name whose looked-up `props` is falsy (absent) yields `notFound: true`,
otherwise the mapped props.  (`!props` is false for an empty array, so a
component with `props: []` counts as found.) -/
def formatComponentProps (names : List String) (appMap : List AppMapItem) :
    List AIFriendlyComponentProps :=
  names.map fun name =>
    match foundProps appMap name with
    | none => { name := name, props := none, notFound := true }
    | some ps =>
      { name := name, props := some (ps.map mapPropToAIFriendly), notFound := false }

/-- `getDruidsComponentProps`: early `[]` for an empty request, otherwise the
per-name formatting over the fetched app map. -/
def getDruidsComponentProps (names : List String) (appMap : List AppMapItem) :
    List AIFriendlyComponentProps :=
  if names.isEmpty then [] else formatComponentProps names appMap

/-! ## Tool adapters (`backend/mcp-tools.ts`) -/

/-- Payload element of the list-components channel operation
(`AvailableComponent` in `backend/mcp-client.ts`). -/
structure AvailableComponent where
  name : String
  description : Option String
  statusLevel : Option String
  directoryPath : String
  importPath : Option String
deriving Repr, DecidableEq

/-- JSON envelope returned by `ListComponentsTool.call`. -/
structure ListEnvelope where
  success : Bool
  components : List AvailableComponent
  total : Nat
  error : Option String
  message : String
deriving Repr, DecidableEq

/-- JSON envelope returned by `GetComponentPropsTool.call`. -/
structure PropsEnvelope where
  success : Bool
  components : List AIFriendlyComponentProps
  notFound : List String
  error : Option String
  message : String
deriving Repr, DecidableEq

/-- Side effects performed by one adapter call: how many times
`mcpClient.connect()` was attempted and how many remote tool calls were
issued. -/
structure CallTrace where
  connectAttempts : Nat
  remoteCalls : Nat
deriving Repr, DecidableEq

/-- `MCPClient.listAvailableComponents()`: throws `MCP Client not connected`
unless both `isConnected` and `client` are set, otherwise performs the remote
call (its outcome is the `remote` argument). -/
def listAvailableComponents (ch : MCPState)
    (remote : Except String (List AvailableComponent)) :
    Except String (List AvailableComponent) :=
  if ch.isConnected && ch.clientSet then remote
  else Except.error ("MCP Client not connected")

/-- `MCPClient.getComponentProps(names)`: same connectedness guard, then the
remote call. -/
def clientGetComponentProps (ch : MCPState)
    (remote : List String → Except String (List AIFriendlyComponentProps))
    (names : List String) : Except String (List AIFriendlyComponentProps) :=
  if ch.isConnected && ch.clientSet then remote names
  else Except.error ("MCP Client not connected")

/-- `ListComponentsTool.call()`: connect when not ready, fetch the component
list, and wrap it in a success envelope; any thrown error is caught and
converted into a `success: false` envelope (the function is total — it never
propagates an error). -/
def listComponentsCall (connectSucceeds : Bool)
    (remote : Except String (List AvailableComponent)) (ch : MCPState) :
    ListEnvelope × MCPState × CallTrace :=
  let failEnvelope : String → ListEnvelope := fun e =>
    { success := false, components := [], total := 0, error := some e
    , message := "Failed to retrieve component list. Please try again or use the RAG tool for general component information." }
  let (ch1, connectRes, attempts) :=
    if isReady ch then (ch, Except.ok (), 0)
    else ((mcpConnect connectSucceeds ch).1, (mcpConnect connectSucceeds ch).2, 1)
  match connectRes with
  | Except.error e => (failEnvelope e, ch1, { connectAttempts := attempts, remoteCalls := 0 })
  | Except.ok _ =>
    match listAvailableComponents ch1 remote with
    | Except.error e => (failEnvelope e, ch1, { connectAttempts := attempts, remoteCalls := 1 })
    | Except.ok cs =>
      ({ success := true, components := cs, total := cs.length, error := none
       , message := "Found " ++ toString cs.length ++ " available DRUIDS components" },
       ch1, { connectAttempts := attempts, remoteCalls := 1 })

/-- The `names` argument as received by `GetComponentPropsTool.call`: it may
be missing, be a non-array JSON value, or be an array of strings. -/
inductive NamesInput where
  | missing
  | notArray
  | arr (names : List String)
deriving Repr, DecidableEq

/-- `GetComponentPropsTool.call(input)`: validates the `names` argument
before touching the channel, then connects when not ready, performs the
batch lookup, and partitions the result into found and not-found components
by the `notFound` flag.  Every thrown error is caught and converted into a
`success: false` envelope. -/
def getComponentPropsCall (input : NamesInput) (connectSucceeds : Bool)
    (remote : List String → Except String (List AIFriendlyComponentProps))
    (ch : MCPState) : PropsEnvelope × MCPState × CallTrace :=
  let invalid : PropsEnvelope :=
    { success := false, components := [], notFound := []
    , error := some ("Invalid input: names must be a non-empty array of component names")
    , message := "Please provide component names as an array, e.g., [\"Button\", \"Input\"]" }
  let failEnvelope : String → PropsEnvelope := fun e =>
    { success := false, components := [], notFound := [], error := some e
    , message := "Failed to retrieve component props. Please try again or use the RAG tool for general component information." }
  match input with
  | NamesInput.missing => (invalid, ch, { connectAttempts := 0, remoteCalls := 0 })
  | NamesInput.notArray => (invalid, ch, { connectAttempts := 0, remoteCalls := 0 })
  | NamesInput.arr names =>
    if names.isEmpty then (invalid, ch, { connectAttempts := 0, remoteCalls := 0 })
    else
      let (ch1, connectRes, attempts) :=
        if isReady ch then (ch, Except.ok (), 0)
        else ((mcpConnect connectSucceeds ch).1, (mcpConnect connectSucceeds ch).2, 1)
      match connectRes with
      | Except.error e => (failEnvelope e, ch1, { connectAttempts := attempts, remoteCalls := 0 })
      | Except.ok _ =>
        match clientGetComponentProps ch1 remote names with
        | Except.error e => (failEnvelope e, ch1, { connectAttempts := attempts, remoteCalls := 1 })
        | Except.ok componentProps =>
          let foundComponents := componentProps.filter fun comp => !comp.notFound
          let notFoundComponents := componentProps.filter fun comp => comp.notFound
          ({ success := true
           , components := foundComponents
           , notFound := notFoundComponents.map (fun comp => comp.name)
           , error := none
           , message := "Retrieved props for " ++ toString foundComponents.length ++ " components. " ++
               (if notFoundComponents.length > 0 then
                  "Could not find: " ++
                    String.intercalate ", " (notFoundComponents.map (fun comp => comp.name))
                else "") },
           ch1, { connectAttempts := attempts, remoteCalls := 1 })

/-! ## Session cache (`getChatEngine` and friends in the server file) -/

/-- Idle threshold: `10 * 60 * 1000` ms. -/
def T : Nat := 10 * 60 * 1000

/-- Eviction-check delay: `5 * 60 * 1000` ms. -/
def D : Nat := 5 * 60 * 1000

/-- Names of the tools every agent is constructed with:
`allTools = [queryEngineTool, ...createMCPTools()]`. -/
def allToolNames : List String :=
  ["druids_query_engine", "list_druids_components", "get_component_props"]

/-- A constructed `OpenAIAgent`.  The `id` is a creation counter standing for
JavaScript reference identity: two agents are the same object exactly when
their ids agree. -/
structure Agent where
  id : Nat
  tools : List String
deriving Repr, DecidableEq

/-- Module-level mutable state of the server: the two session maps, the
agent-creation counter, and the multiset of scheduled (and not yet fired)
`setTimeout` eviction checks as `(userId, fireTime)` pairs. -/
structure CacheState where
  chatEngines : Store Agent
  lastActivityTimes : Store Nat
  nextAgentId : Nat
  pendingChecks : List (String × Nat)

/-- The server state at startup: both maps empty, nothing scheduled. -/
def initCache : CacheState :=
  { chatEngines := Store.empty, lastActivityTimes := Store.empty
  , nextAgentId := 0, pendingChecks := [] }

/-- Result of one `getChatEngine` call: the returned agent and the updated
cache and channel state.  (`initializeEngine` — the retrieval index build —
is modelled as succeeding; its failure path is outside the claims.) -/
structure EngineResult where
  agent : Agent
  cache : CacheState
  channel : MCPState

/-- `getChatEngine(userId)`: on a cache miss it attempts the MCP connect when
the channel is not ready (swallowing a connect failure — graceful
degradation) and stores a fresh agent built with `allToolNames`; on every
call it refreshes `lastActivityTimes[userId]` to `now`, schedules an
eviction check for `now + D`, and returns `chatEngines.get(userId)` (the
source casts away the `undefined` case; the model uses a default that is
shown unreachable). -/
def getChatEngine (userId : String) (now : Nat) (connectSucceeds : Bool)
    (st : CacheState) (ch : MCPState) : EngineResult :=
  let (st1, ch1) :=
    if (Store.get st.chatEngines userId).isSome then (st, ch)
    else
      let chNext := if isReady ch then ch else (mcpConnect connectSucceeds ch).1
      let chatEngine : Agent := { id := st.nextAgentId, tools := allToolNames }
      ({ st with chatEngines := Store.set st.chatEngines userId chatEngine
               , nextAgentId := st.nextAgentId + 1 }, chNext)
  let st2 :=
    { st1 with lastActivityTimes := Store.set st1.lastActivityTimes userId now
             , pendingChecks := st1.pendingChecks ++ [(userId, now + D)] }
  { agent := (Store.get st2.chatEngines userId).getD { id := 0, tools := [] }
  , cache := st2, channel := ch1 }

/-- Body of the scheduled `setTimeout` callback, fired at `now`: re-reads the
latest `lastActivityTimes.get(userId)` (defaulting to `0` when absent, as in
`lastActivityTime || 0`) and deletes both map entries when the observed idle
duration reaches `T`. -/
def evictionCheck (userId : String) (now : Nat) (st : CacheState) : CacheState :=
  if T ≤ now - (Store.get st.lastActivityTimes userId).getD 0 then
    { st with chatEngines := Store.del st.chatEngines userId
            , lastActivityTimes := Store.del st.lastActivityTimes userId }
  else st

/-- An event acting on the module state: a `getChatEngine` access at a time,
or the firing of a scheduled eviction check at a time. -/
inductive CacheEvent where
  | access (userId : String) (now : Nat) (connectSucceeds : Bool)
  | checkFire (userId : String) (now : Nat)
deriving Repr, DecidableEq

/-- One event step on the combined cache + channel state. -/
def stepCache (s : CacheState × MCPState) (e : CacheEvent) : CacheState × MCPState :=
  match e with
  | CacheEvent.access u t c =>
    let r := getChatEngine u t c s.1 s.2
    (r.cache, r.channel)
  | CacheEvent.checkFire u t => (evictionCheck u t s.1, s.2)

/-- Run a time-ordered list of events. -/
def runCache (s : CacheState × MCPState) (es : List CacheEvent) : CacheState × MCPState :=
  es.foldl stepCache s

/-! ## Query dispatch and HTTP handlers (server file) -/

/-- `queryIndex(query, userId)`: obtains the session agent (creating it if
needed) and invokes the model non-streamed.  The model call is a
deterministic stub `chatFull`. -/
def queryIndex (chatFull : String → String) (query : String) (userId : String)
    (now : Nat) (connectSucceeds : Bool) (st : CacheState) (ch : MCPState) :
    String × CacheState × MCPState :=
  let r := getChatEngine userId now connectSucceeds st ch
  (chatFull query, r.cache, r.channel)

/-- `streamQueryIndex(query, userId)`: obtains the session agent and yields
the streamed chunks.  The streamed model call is a deterministic stub
`chatChunks`. -/
def streamQueryIndex (chatChunks : String → List String) (query : String)
    (userId : String) (now : Nat) (connectSucceeds : Bool)
    (st : CacheState) (ch : MCPState) :
    List String × CacheState × MCPState :=
  let r := getChatEngine userId now connectSucceeds st ch
  (chatChunks query, r.cache, r.channel)

/-- An inbound HTTP POST: the parsed `query` body field (absent when the body
has none) and the `X-User` header (absent when not sent). -/
structure HttpRequest where
  query : Option String
  xUser : Option String
deriving Repr, DecidableEq

/-- Outcome of the `POST /query` handler. -/
structure QueryResult where
  status : Nat
  body : String
  cache : CacheState
  channel : MCPState
  dispatched : Bool

/-- Outcome of the `POST /stream-query` handler: `writes` are the bodies of
the SSE frames written, in order. -/
structure StreamResult where
  status : Nat
  writes : List String
  cache : CacheState
  channel : MCPState
  dispatched : Bool

/-- The wire form of one SSE frame written by the stream handler:
`data: <body>\n\n`. -/
def sseWire (body : String) : String := "data: " ++ body ++ "\x0a\x0a"

/-- `app.post('/query')`: responds 400 without invoking the dispatcher when
the `X-User` header is falsy (absent or empty), otherwise runs `queryIndex`
and answers 200 with the result. -/
def handleQuery (chatFull : String → String) (req : HttpRequest) (now : Nat)
    (connectSucceeds : Bool) (st : CacheState) (ch : MCPState) : QueryResult :=
  match req.xUser with
  | none =>
    { status := 400, body := "Missing X-User header", cache := st, channel := ch
    , dispatched := false }
  | some userId =>
    if userId = "" then
      { status := 400, body := "Missing X-User header", cache := st, channel := ch
      , dispatched := false }
    else
      let r := queryIndex chatFull (req.query.getD "") userId now connectSucceeds st ch
      { status := 200, body := r.1, cache := r.2.1, channel := r.2.2
      , dispatched := true }

/-- `app.post('/stream-query')`: the same `X-User` guard, then one
`data:` frame written per chunk yielded by `streamQueryIndex`. -/
def handleStreamQuery (chatChunks : String → List String) (req : HttpRequest)
    (now : Nat) (connectSucceeds : Bool) (st : CacheState) (ch : MCPState) :
    StreamResult :=
  match req.xUser with
  | none =>
    { status := 400, writes := [], cache := st, channel := ch, dispatched := false }
  | some userId =>
    if userId = "" then
      { status := 400, writes := [], cache := st, channel := ch, dispatched := false }
    else
      let r := streamQueryIndex chatChunks (req.query.getD "") userId now
        connectSucceeds st ch
      { status := 200, writes := r.1, cache := r.2.1, channel := r.2.2
      , dispatched := true }

/-! ## Helper lemmas about the session cache -/

/-- A `getChatEngine` call that hits the cache: the agent map is untouched,
the stored agent is returned, the timestamp is refreshed and a check is
scheduled. -/
theorem getChatEngine_hit (u : String) (t : Nat) (c : Bool) (st : CacheState)
    (ch : MCPState) (a : Agent) (h : Store.get st.chatEngines u = some a) :
    (getChatEngine u t c st ch).agent = a
    ∧ (getChatEngine u t c st ch).cache.chatEngines = st.chatEngines
    ∧ (getChatEngine u t c st ch).cache.lastActivityTimes
        = Store.set st.lastActivityTimes u t
    ∧ (getChatEngine u t c st ch).cache.nextAgentId = st.nextAgentId
    ∧ (getChatEngine u t c st ch).cache.pendingChecks
        = st.pendingChecks ++ [(u, t + D)]
    ∧ (getChatEngine u t c st ch).channel = ch := by
  simp [getChatEngine, h]

/-- A `getChatEngine` call that misses the cache: one fresh agent (numbered
by the creation counter) is stored under the id, the counter advances by
one, the timestamp is set and a check is scheduled; the channel is the
outcome of the connect attempt. -/
theorem getChatEngine_miss (u : String) (t : Nat) (c : Bool) (st : CacheState)
    (ch : MCPState) (h : Store.get st.chatEngines u = none) :
    (getChatEngine u t c st ch).agent = { id := st.nextAgentId, tools := allToolNames }
    ∧ (getChatEngine u t c st ch).cache.chatEngines
        = Store.set st.chatEngines u { id := st.nextAgentId, tools := allToolNames }
    ∧ (getChatEngine u t c st ch).cache.lastActivityTimes
        = Store.set st.lastActivityTimes u t
    ∧ (getChatEngine u t c st ch).cache.nextAgentId = st.nextAgentId + 1
    ∧ (getChatEngine u t c st ch).cache.pendingChecks
        = st.pendingChecks ++ [(u, t + D)]
    ∧ (getChatEngine u t c st ch).channel
        = (if isReady ch then ch else (mcpConnect c ch).1) := by
  simp [getChatEngine, h]

/-- An eviction check that observes an idle duration below `T` is a no-op on
the whole state. -/
theorem evictionCheck_of_lt (u : String) (t : Nat) (st : CacheState)
    (h : t - (Store.get st.lastActivityTimes u).getD 0 < T) :
    evictionCheck u t st = st := by
  unfold evictionCheck
  rw [if_neg (Nat.not_le.mpr h)]

/-- An eviction check that observes an idle duration of at least `T` deletes
both map entries for the id and changes nothing else. -/
theorem evictionCheck_of_le (u : String) (t : Nat) (st : CacheState)
    (h : T ≤ t - (Store.get st.lastActivityTimes u).getD 0) :
    (evictionCheck u t st).chatEngines = Store.del st.chatEngines u
    ∧ (evictionCheck u t st).lastActivityTimes = Store.del st.lastActivityTimes u
    ∧ (evictionCheck u t st).nextAgentId = st.nextAgentId
    ∧ (evictionCheck u t st).pendingChecks = st.pendingChecks := by
  unfold evictionCheck
  rw [if_pos h]
  exact ⟨rfl, rfl, rfl, rfl⟩

/-- A session with no map entries at all is never resurrected by a sequence
of eviction-check firings. -/
theorem runChecks_dead (u : String) (ts : List Nat) (st : CacheState) (ch : MCPState)
    (hA : Store.get st.chatEngines u = none)
    (hT : Store.get st.lastActivityTimes u = none) :
    Store.get (runCache (st, ch) (ts.map fun t => CacheEvent.checkFire u t)).1.chatEngines u
        = none
    ∧ Store.get (runCache (st, ch)
        (ts.map fun t => CacheEvent.checkFire u t)).1.lastActivityTimes u = none := by
  induction ts generalizing st with
  | nil => exact ⟨hA, hT⟩
  | cons t ts ih =>
    have hA' : Store.get (evictionCheck u t st).chatEngines u = none := by
      unfold evictionCheck
      split
      · exact Store.get_del_self _ _
      · exact hA
    have hT' : Store.get (evictionCheck u t st).lastActivityTimes u = none := by
      unfold evictionCheck
      split
      · exact Store.get_del_self _ _
      · exact hT
    simpa only [List.map_cons, runCache, List.foldl_cons, stepCache]
      using ih (evictionCheck u t st) hA' hT'

/-- For a session cached with `lastActivity = 0` and never re-accessed, a
sequence of eviction-check firings keeps it exactly when every check fires
before `T`. -/
theorem runChecks_live (u : String) (a : Agent) (ts : List Nat)
    (st : CacheState) (ch : MCPState)
    (hA : Store.get st.chatEngines u = some a)
    (hT : Store.get st.lastActivityTimes u = some 0) :
    (Store.get (runCache (st, ch)
        (ts.map fun t => CacheEvent.checkFire u t)).1.chatEngines u).isSome
      = ts.all (fun t => decide (t < T)) := by
  induction ts generalizing st with
  | nil =>
    simp only [List.map_nil, runCache, List.foldl_nil]
    rw [hA]
    rfl
  | cons t ts ih =>
    by_cases ht : t < T
    · have hnoop : evictionCheck u t st = st := by
        apply evictionCheck_of_lt
        rw [hT]
        simpa using ht
      have : (runCache (st, ch) ((t :: ts).map fun s => CacheEvent.checkFire u s)).1
          = (runCache (st, ch) (ts.map fun s => CacheEvent.checkFire u s)).1 := by
        simp only [List.map_cons, runCache, List.foldl_cons, stepCache, hnoop]
      rw [this, ih st hA hT]
      simp [ht]
    · have hle : T ≤ t - (Store.get st.lastActivityTimes u).getD 0 := by
        rw [hT]
        simpa using Nat.not_lt.mp ht
      obtain ⟨hcE, hcL, _, _⟩ := evictionCheck_of_le u t st hle
      have hdead := runChecks_dead u ts (evictionCheck u t st) ch
        (by rw [hcE]; exact Store.get_del_self _ _)
        (by rw [hcL]; exact Store.get_del_self _ _)
      have : (runCache (st, ch) ((t :: ts).map fun s => CacheEvent.checkFire u s)).1
          = (runCache (evictionCheck u t st, ch)
              (ts.map fun s => CacheEvent.checkFire u s)).1 := by
        simp only [List.map_cons, runCache, List.foldl_cons, stepCache]
      rw [this, hdead.1]
      simp [ht]

/-! ## Claim theorems -/

/-- C1: For every session id not present in the cache, the first
`getChatEngine` call constructs exactly one new agent (the creation counter
advances by exactly one and no other id's entry changes) and stores it under
that id, and every call with the same id made while that entry is still
cached — in particular every subsequent call before any eviction of the id —
returns the identical agent instance that the first call stored. -/
theorem claim1_getOrCreate_reference_stability
    (u : String) (t1 : Nat) (c1 : Bool) (st : CacheState) (ch : MCPState)
    (h : Store.get st.chatEngines u = none) :
    Store.get (getChatEngine u t1 c1 st ch).cache.chatEngines u
      = some (getChatEngine u t1 c1 st ch).agent
    ∧ (getChatEngine u t1 c1 st ch).agent
        = { id := st.nextAgentId, tools := allToolNames }
    ∧ (getChatEngine u t1 c1 st ch).cache.nextAgentId = st.nextAgentId + 1
    ∧ (∀ v, v ≠ u → Store.get (getChatEngine u t1 c1 st ch).cache.chatEngines v
        = Store.get st.chatEngines v)
    ∧ (∀ st' ch' t' c' a, Store.get st'.chatEngines u = some a →
        (getChatEngine u t' c' st' ch').agent = a
        ∧ Store.get (getChatEngine u t' c' st' ch').cache.chatEngines u = some a) := by
  obtain ⟨ha, he, _, hn, _, _⟩ := getChatEngine_miss u t1 c1 st ch h
  refine ⟨?_, ha, hn, ?_, ?_⟩
  · rw [he, ha]
    exact Store.get_set_self _ _ _
  · intro v hv
    rw [he]
    exact Store.get_set_of_ne _ _ _ _ hv
  · intro st' ch' t' c' a ha'
    obtain ⟨h1, h2, _⟩ := getChatEngine_hit u t' c' st' ch' a ha'
    exact ⟨h1, by rw [h2, ha']⟩

/-- Witness for C1: a concrete fresh session "alice" created at time 0 and
re-fetched at time 7 yields the same agent instance. -/
theorem claim1_witness :
    Store.get initCache.chatEngines "alice" = none
    ∧ (getChatEngine "alice" 7 true
        (getChatEngine "alice" 0 false initCache
          { isConnected := false, clientSet := false }).cache
        (getChatEngine "alice" 0 false initCache
          { isConnected := false, clientSet := false }).channel).agent
      = (getChatEngine "alice" 0 false initCache
          { isConnected := false, clientSet := false }).agent := by
  have h := claim1_getOrCreate_reference_stability "alice" 0 false initCache
    { isConnected := false, clientSet := false } rfl
  exact ⟨rfl, (h.2.2.2.2 _ (getChatEngine "alice" 0 false initCache
    { isConnected := false, clientSet := false }).channel 7 true _ h.1).1⟩

/-- The cache coherence invariant of C9: an agent is cached for an id exactly
when a last-activity timestamp is recorded for that id. -/
def keysAgree (st : CacheState) : Prop :=
  ∀ u, (Store.get st.chatEngines u).isSome = (Store.get st.lastActivityTimes u).isSome

/-- C9: the key sets of `chatEngines` and `lastActivityTimes` agree after
any completed `getChatEngine` call and after any completed eviction-check
callback, provided they agreed before — creation sets both entries, a hit
refreshes the timestamp of a cached id, and eviction deletes both
together. -/
theorem claim9_cache_key_invariant (st : CacheState) (ch : MCPState)
    (u : String) (t : Nat) (c : Bool) (v : String) (s : Nat)
    (h : keysAgree st) :
    keysAgree (getChatEngine u t c st ch).cache ∧ keysAgree (evictionCheck v s st) := by
  constructor
  · intro w
    by_cases hw : w = u
    · subst hw
      cases hE : Store.get st.chatEngines w with
      | none =>
        obtain ⟨_, he, hl, _⟩ := getChatEngine_miss w t c st ch hE
        rw [he, hl, Store.get_set_self, Store.get_set_self]
        rfl
      | some a =>
        obtain ⟨_, he, hl, _⟩ := getChatEngine_hit w t c st ch a hE
        rw [he, hl, Store.get_set_self, hE]
        rfl
    · cases hE : Store.get st.chatEngines u with
      | none =>
        obtain ⟨_, he, hl, _⟩ := getChatEngine_miss u t c st ch hE
        rw [he, hl, Store.get_set_of_ne _ _ _ _ hw, Store.get_set_of_ne _ _ _ _ hw]
        exact h w
      | some a =>
        obtain ⟨_, he, hl, _⟩ := getChatEngine_hit u t c st ch a hE
        rw [he, hl, Store.get_set_of_ne _ _ _ _ hw]
        exact h w
  · intro w
    by_cases hle : T ≤ s - (Store.get st.lastActivityTimes v).getD 0
    · obtain ⟨he, hl, _, _⟩ := evictionCheck_of_le v s st hle
      by_cases hw : w = v
      · subst hw
        rw [he, hl, Store.get_del_self, Store.get_del_self]
        rfl
      · rw [he, hl, Store.get_del_of_ne _ _ _ hw, Store.get_del_of_ne _ _ _ hw]
        exact h w
    · rw [evictionCheck_of_lt v s st (Nat.not_le.mp hle)]
      exact h w

/-- Witness for C9 at the startup state: the invariant holds after creating
a session for "alice" and after an eviction check for "bob". -/
theorem claim9_witness :
    keysAgree (getChatEngine "alice" 0 true initCache
      { isConnected := false, clientSet := false }).cache
    ∧ keysAgree (evictionCheck "bob" 0 initCache) :=
  claim9_cache_key_invariant initCache { isConnected := false, clientSet := false }
    "alice" 0 true "bob" 0 (fun _ => rfl)

/-- C2: For a session whose recorded `lastActivity` is time 0 and which is
never accessed again, an eviction check firing at time `t` removes the
session from the cache exactly when `t - lastActivity ≥ T`, and is a
complete no-op when the idle duration is below `T`; consequently, starting
from the access at time 0, the session survives a sequence of scheduled
check firings exactly when every one of them fires at a time `< T`. -/
theorem claim2_idle_eviction (u : String) (c : Bool) (ch : MCPState)
    (ts : List Nat) (st0 : CacheState)
    (h0 : Store.get st0.lastActivityTimes u = some 0) :
    (∀ t, T ≤ t → Store.get (evictionCheck u t st0).chatEngines u = none)
    ∧ (∀ t, t < T → evictionCheck u t st0 = st0)
    ∧ (Store.get (runCache (stepCache (initCache, ch) (CacheEvent.access u 0 c))
          (ts.map fun t => CacheEvent.checkFire u t)).1.chatEngines u).isSome
        = ts.all (fun t => decide (t < T)) := by
  refine ⟨?_, ?_, ?_⟩
  · intro t ht
    have hle : T ≤ t - (Store.get st0.lastActivityTimes u).getD 0 := by
      rw [h0]
      simpa using ht
    obtain ⟨he, _⟩ := evictionCheck_of_le u t st0 hle
    rw [he]
    exact Store.get_del_self _ _
  · intro t ht
    apply evictionCheck_of_lt
    rw [h0]
    simpa using ht
  · obtain ⟨_, he, hl, _⟩ :=
      getChatEngine_miss u 0 c initCache ch rfl
    have hstep : stepCache (initCache, ch) (CacheEvent.access u 0 c)
        = ((getChatEngine u 0 c initCache ch).cache,
           (getChatEngine u 0 c initCache ch).channel) := rfl
    rw [hstep]
    exact runChecks_live u _ ts _ _ (by rw [he]; exact Store.get_set_self _ _ _)
      (by rw [hl]; exact Store.get_set_self _ _ _)

/-- Witness for C2: session "alice" accessed at time 0; the checks firing at
times `D` and `T` do not all fire before `T`, and indeed the session is gone
afterwards, while a single check at `D` keeps it. -/
theorem claim2_witness :
    Store.get (stepCache (initCache, ({ isConnected := false, clientSet := false } : MCPState))
        (CacheEvent.access "alice" 0 true)).1.lastActivityTimes "alice" = some 0
    ∧ (Store.get (runCache (stepCache (initCache,
          ({ isConnected := false, clientSet := false } : MCPState))
          (CacheEvent.access "alice" 0 true))
          ([D, T].map fun t => CacheEvent.checkFire "alice" t)).1.chatEngines "alice").isSome
        = [D, T].all (fun t => decide (t < T)) := by
  have h := claim2_idle_eviction "alice" true
    { isConnected := false, clientSet := false } [D, T]
    (stepCache (initCache, ({ isConnected := false, clientSet := false } : MCPState))
      (CacheEvent.access "alice" 0 true)).1 (by decide)
  exact ⟨by decide, h.2.2⟩

/-- C4: a session accessed at time 0 and again at time `T - eps`
(with `0 < eps < T - D`) is still cached after any eviction check firing at
a time `t ≤ T + eps / 2`: the check re-reads the refreshed `lastActivity`
and observes an idle duration below `T`, so it no-ops; moreover the two
accesses schedule their checks at exactly `0 + D` and `(T - eps) + D`, so no
check fires earlier than `D` after its access. -/
theorem claim4_overlapping_access_resets_idleness
    (u : String) (c1 c2 : Bool) (ch : MCPState) (eps t : Nat)
    (h0 : 0 < eps) (h1 : eps < T - D) (h2 : t ≤ T + eps / 2) :
    (Store.get (runCache (initCache, ch)
        [CacheEvent.access u 0 c1, CacheEvent.checkFire u D,
         CacheEvent.access u (T - eps) c2,
         CacheEvent.checkFire u t]).1.chatEngines u).isSome = true
    ∧ (runCache (initCache, ch)
        [CacheEvent.access u 0 c1, CacheEvent.checkFire u D,
         CacheEvent.access u (T - eps) c2]).1.pendingChecks
      = [(u, 0 + D), (u, (T - eps) + D)] := by
  obtain ⟨_, he1, hl1, _, hp1, _⟩ := getChatEngine_miss u 0 c1 initCache ch rfl
  have hrun1 : runCache (initCache, ch) [CacheEvent.access u 0 c1]
      = ((getChatEngine u 0 c1 initCache ch).cache,
         (getChatEngine u 0 c1 initCache ch).channel) := rfl
  have hnoop : evictionCheck u D (getChatEngine u 0 c1 initCache ch).cache
      = (getChatEngine u 0 c1 initCache ch).cache := by
    apply evictionCheck_of_lt
    rw [hl1, Store.get_set_self]
    decide
  obtain ⟨_, he2, hl2, _, hp2, _⟩ := getChatEngine_hit u (T - eps) c2
    (getChatEngine u 0 c1 initCache ch).cache
    (getChatEngine u 0 c1 initCache ch).channel
    { id := initCache.nextAgentId, tools := allToolNames }
    (by rw [he1]; exact Store.get_set_self _ _ _)
  have hnoop2 : evictionCheck u t
      (getChatEngine u (T - eps) c2 (getChatEngine u 0 c1 initCache ch).cache
        (getChatEngine u 0 c1 initCache ch).channel).cache
      = (getChatEngine u (T - eps) c2 (getChatEngine u 0 c1 initCache ch).cache
        (getChatEngine u 0 c1 initCache ch).channel).cache := by
    apply evictionCheck_of_lt
    rw [hl2, Store.get_set_self]
    simp only [Option.getD_some, T, D] at h1 h2 ⊢
    omega
  have hrun3 : (runCache (initCache, ch)
      [CacheEvent.access u 0 c1, CacheEvent.checkFire u D,
       CacheEvent.access u (T - eps) c2]).1
      = (getChatEngine u (T - eps) c2 (getChatEngine u 0 c1 initCache ch).cache
        (getChatEngine u 0 c1 initCache ch).channel).cache := by
    simp only [runCache, List.foldl_cons, List.foldl_nil, stepCache, hnoop]
  have hrun4 : (runCache (initCache, ch)
      [CacheEvent.access u 0 c1, CacheEvent.checkFire u D,
       CacheEvent.access u (T - eps) c2, CacheEvent.checkFire u t]).1
      = (getChatEngine u (T - eps) c2 (getChatEngine u 0 c1 initCache ch).cache
        (getChatEngine u 0 c1 initCache ch).channel).cache := by
    simp only [runCache, List.foldl_cons, List.foldl_nil, stepCache, hnoop, hnoop2]
  constructor
  · rw [hrun4, he2, he1, Store.get_set_self]
    rfl
  · rw [hrun3, hp2, hp1]
    rfl

/-- Witness for C4 with `eps = 60000` (one minute) and a check firing at
time `T + eps / 2` itself: the session accessed at 0 and at `T - eps` is
still cached. -/
theorem claim4_witness :
    (Store.get (runCache (initCache, ({ isConnected := false, clientSet := false } : MCPState))
        [CacheEvent.access "alice" 0 true, CacheEvent.checkFire "alice" D,
         CacheEvent.access "alice" (T - 60000) true,
         CacheEvent.checkFire "alice" (T + 60000 / 2)]).1.chatEngines "alice").isSome = true :=
  (claim4_overlapping_access_resets_idleness "alice" true true
    { isConnected := false, clientSet := false } 60000 (T + 60000 / 2)
    (by decide) (by decide) (by decide)).1

/-- C3 counterexample: at a concrete input where the MCP connect fails at
agent-creation time (channel disconnected, connect oracle false), the agent
is built with the retrieval tool PLUS both MCP adapter tools — not with only
the retrieval tool as the claim states: `createMCPTools()` is called
unconditionally after the swallowed connect failure. -/
theorem claim3_counterexample :
    (getChatEngine "alice" 0 false initCache
        { isConnected := false, clientSet := false }).agent.tools
      = ["druids_query_engine", "list_druids_components", "get_component_props"]
    ∧ (getChatEngine "alice" 0 false initCache
        { isConnected := false, clientSet := false }).agent.tools
      ≠ ["druids_query_engine"] := by
  constructor
  · rfl
  · decide

/-- C3 as amended: when the remote tool channel cannot connect, each adapter
call returns a `success: false` envelope (the adapters are total functions —
no error propagates), and `getChatEngine` still succeeds in constructing and
caching an agent; that agent's tool set is the retrieval tool together with
the two MCP adapter tools (not retrieval-only) — graceful degradation
happens per-call inside the adapters, not by shrinking the tool list. -/
theorem claim3_tool_degradation (u : String) (t : Nat) (names : List String)
    (st : CacheState) (ch : MCPState)
    (remoteL : Except String (List AvailableComponent))
    (remoteP : List String → Except String (List AIFriendlyComponentProps))
    (hch : ch.isConnected = false)
    (hu : Store.get st.chatEngines u = none)
    (hn : names ≠ []) :
    (listComponentsCall false remoteL ch).1.success = false
    ∧ (listComponentsCall false remoteL ch).1.error.isSome = true
    ∧ (getComponentPropsCall (NamesInput.arr names) false remoteP ch).1.success = false
    ∧ (getComponentPropsCall (NamesInput.arr names) false remoteP ch).1.error.isSome = true
    ∧ Store.get (getChatEngine u t false st ch).cache.chatEngines u
        = some (getChatEngine u t false st ch).agent
    ∧ (getChatEngine u t false st ch).agent.tools = allToolNames := by
  have hready : isReady ch = false := hch
  have hnE : names.isEmpty = false := by
    cases names with
    | nil => exact absurd rfl hn
    | cons x xs => rfl
  refine ⟨?_, ?_, ?_, ?_, ?_, ?_⟩
  · simp [listComponentsCall, hready, mcpConnect, hch]
  · simp [listComponentsCall, hready, mcpConnect, hch]
  · simp [getComponentPropsCall, hready, mcpConnect, hch, hnE]
  · simp [getComponentPropsCall, hready, mcpConnect, hch, hnE]
  · obtain ⟨ha, he, _⟩ := getChatEngine_miss u t false st ch hu
    rw [he, ha]
    exact Store.get_set_self _ _ _
  · exact congrArg Agent.tools (getChatEngine_miss u t false st ch hu).1

/-- Witness for C3 as amended, at a disconnected channel and a fresh
session. -/
theorem claim3_witness :
    (listComponentsCall false (Except.ok [])
        { isConnected := false, clientSet := false }).1.success = false
    ∧ (getComponentPropsCall (NamesInput.arr ["Button"]) false (fun _ => Except.ok [])
        { isConnected := false, clientSet := false }).1.success = false
    ∧ (getChatEngine "alice" 0 false initCache
        { isConnected := false, clientSet := false }).agent.tools = allToolNames := by
  have h := claim3_tool_degradation "alice" 0 ["Button"] initCache
    { isConnected := false, clientSet := false } (Except.ok [])
    (fun _ => Except.ok []) rfl rfl (by decide)
  exact ⟨h.1, h.2.2.1, h.2.2.2.2.2⟩

/-- C6 counterexample: when the channel is connected and the underlying
`client.close()` raises, `disconnect()` swallows the error but leaves the
state untouched, so `isReady()` still returns `true` afterwards —
contradicting the claim that every execution leaves the channel state
cleared back to disconnected. -/
theorem claim6_counterexample :
    isReady (mcpDisconnect (Except.error ("close failed"))
      { isConnected := true, clientSet := true }) = true := by
  decide

/-- C6 as amended: `disconnect()` never propagates a teardown error (it is a
total state transition); it is a no-op when already disconnected; when the
teardown succeeds it clears the state back to disconnected (`isReady` is
false afterwards) and a repeated `disconnect` is then a no-op; but when the
teardown raises, the error is swallowed and the whole state — including the
connected flag — is left unchanged. -/
theorem claim6_disconnect_behavior (s : MCPState) (r : Except String Unit)
    (e : String) (hc : s.clientSet = true) :
    (s.isConnected = false → mcpDisconnect r s = s)
    ∧ isReady (mcpDisconnect (Except.ok ()) s) = false
    ∧ mcpDisconnect r (mcpDisconnect (Except.ok ()) s) = mcpDisconnect (Except.ok ()) s
    ∧ mcpDisconnect (Except.error e) s = s := by
  cases s with
  | mk conn client =>
    cases conn <;> cases client <;> simp_all [mcpDisconnect, isReady]

/-- Witness for C6 as amended at a connected channel whose teardown
raises. -/
theorem claim6_witness :
    mcpDisconnect (Except.error ("boom")) { isConnected := true, clientSet := true }
      = { isConnected := true, clientSet := true }
    ∧ isReady (mcpDisconnect (Except.ok ()) { isConnected := true, clientSet := true })
      = false :=
  ⟨(claim6_disconnect_behavior { isConnected := true, clientSet := true }
      (Except.error ("boom")) "boom" rfl).2.2.2,
   (claim6_disconnect_behavior { isConnected := true, clientSet := true }
      (Except.error ("boom")) "boom" rfl).2.1⟩

/-- C10: an invalid `names` argument to `get_component_props` — missing, not
an array, or an empty array — yields a `success: false` envelope carrying an
error and a non-empty message, with no connect attempt, no remote call, and
the channel state unchanged. -/
theorem claim10_input_validation (input : NamesInput) (c : Bool)
    (remote : List String → Except String (List AIFriendlyComponentProps))
    (ch : MCPState)
    (h : input = NamesInput.missing ∨ input = NamesInput.notArray
        ∨ input = NamesInput.arr []) :
    (getComponentPropsCall input c remote ch).1.success = false
    ∧ (getComponentPropsCall input c remote ch).1.error.isSome = true
    ∧ (getComponentPropsCall input c remote ch).1.message ≠ ""
    ∧ (getComponentPropsCall input c remote ch).2.1 = ch
    ∧ (getComponentPropsCall input c remote ch).2.2
        = { connectAttempts := 0, remoteCalls := 0 } := by
  rcases h with h | h | h <;> subst h <;>
    refine ⟨rfl, rfl, ?_, rfl, rfl⟩ <;> simp [getComponentPropsCall]

/-- Witness for C10 at the empty-array input and a connected channel. -/
theorem claim10_witness :
    (getComponentPropsCall (NamesInput.arr []) true (fun _ => Except.ok [])
        { isConnected := true, clientSet := true }).1.success = false
    ∧ (getComponentPropsCall (NamesInput.arr []) true (fun _ => Except.ok [])
        { isConnected := true, clientSet := true }).2.1
      = { isConnected := true, clientSet := true } := by
  have h := claim10_input_validation (NamesInput.arr []) true (fun _ => Except.ok [])
    { isConnected := true, clientSet := true } (Or.inr (Or.inr rfl))
  exact ⟨h.1, h.2.2.2.1⟩

/-- The found half of the adapter's partition is exactly the requested names
whose app-map lookup yields props, in request order, each with its mapped
props. -/
theorem filter_found_format (appMap : List AppMapItem) (names : List String) :
    (formatComponentProps names appMap).filter (fun comp => !comp.notFound)
      = names.filterMap (fun n => (foundProps appMap n).map fun ps =>
          ({ name := n, props := some (ps.map mapPropToAIFriendly), notFound := false }
            : AIFriendlyComponentProps)) := by
  induction names with
  | nil => rfl
  | cons n ns ih =>
    cases hf : foundProps appMap n <;>
      simp_all [formatComponentProps, hf, List.filter_cons, List.filterMap_cons]

/-- The not-found half of the adapter's partition, projected to names, is
exactly the requested names whose app-map lookup yields nothing, in request
order. -/
theorem filter_notFound_format (appMap : List AppMapItem) (names : List String) :
    ((formatComponentProps names appMap).filter (fun comp => comp.notFound)).map
        (fun comp => comp.name)
      = names.filter (fun n => (foundProps appMap n).isNone) := by
  induction names with
  | nil => rfl
  | cons n ns ih =>
    cases hf : foundProps appMap n <;>
      simp_all [formatComponentProps, hf, List.filter_cons]

/-- C5: when the channel call succeeds, `get_component_props` partitions the
batch result by name: its success envelope lists, in request order, every
requested name whose app-map record yields props together with those props
under `components`, and every requested name without such a record under
`notFound`. -/
theorem claim5_batch_partition (names : List String) (appMap : List AppMapItem)
    (ch : MCPState) (h1 : ch.isConnected = true) (h2 : ch.clientSet = true)
    (hn : names ≠ []) :
    (getComponentPropsCall (NamesInput.arr names) true
        (fun ns => Except.ok (getDruidsComponentProps ns appMap)) ch).1.success = true
    ∧ (getComponentPropsCall (NamesInput.arr names) true
        (fun ns => Except.ok (getDruidsComponentProps ns appMap)) ch).1.components
      = names.filterMap (fun n => (foundProps appMap n).map fun ps =>
          ({ name := n, props := some (ps.map mapPropToAIFriendly), notFound := false }
            : AIFriendlyComponentProps))
    ∧ (getComponentPropsCall (NamesInput.arr names) true
        (fun ns => Except.ok (getDruidsComponentProps ns appMap)) ch).1.notFound
      = names.filter (fun n => (foundProps appMap n).isNone) := by
  have hnE : names.isEmpty = false := by
    cases names with
    | nil => exact absurd rfl hn
    | cons x xs => rfl
  have hget : getDruidsComponentProps names appMap = formatComponentProps names appMap := by
    simp [getDruidsComponentProps, hnE]
  refine ⟨?_, ?_, ?_⟩ <;>
    simp [getComponentPropsCall, hnE, isReady, h1, h2, clientGetComponentProps, hget,
      filter_found_format, filter_notFound_format]

/-- Witness for C5: the claim's concrete instance — requesting
`["Button", "Ghost"]` against an app map holding only `"Button"` returns one
found entry for `"Button"` (with its mapped props) and lists `"Ghost"` under
`notFound`. -/
theorem claim5_witness :
    (getComponentPropsCall (NamesInput.arr ["Button", "Ghost"]) true
        (fun ns => Except.ok (getDruidsComponentProps ns
          [{ label := "Button"
           , props := some [{ name := "variant", type := "string"
                            , required := some true, defaultValue := none
                            , description := none, possibleValues := none }] }]))
        { isConnected := true, clientSet := true }).1.components
      = [{ name := "Button"
         , props := some [{ name := "variant", type := "string"
                          , required := some true, defaultValue := none
                          , description := none, possibleValues := none }]
         , notFound := false }]
    ∧ (getComponentPropsCall (NamesInput.arr ["Button", "Ghost"]) true
        (fun ns => Except.ok (getDruidsComponentProps ns
          [{ label := "Button"
           , props := some [{ name := "variant", type := "string"
                            , required := some true, defaultValue := none
                            , description := none, possibleValues := none }] }]))
        { isConnected := true, clientSet := true }).1.notFound
      = ["Ghost"] := by
  have h := claim5_batch_partition ["Button", "Ghost"]
    [{ label := "Button"
     , props := some [{ name := "variant", type := "string"
                      , required := some true, defaultValue := none
                      , description := none, possibleValues := none }] }]
    { isConnected := true, clientSet := true } rfl rfl (by decide)
  exact ⟨h.2.1.trans (by decide), h.2.2.trans (by decide)⟩

/-- C7: a `POST /query` request without an `X-User` header is answered with
status 400, the dispatcher is never invoked, and the session cache and the
channel are left unchanged; the same header guard protects
`POST /stream-query`. -/
theorem claim7_missing_header (chatFull : String → String)
    (chatChunks : String → List String) (req : HttpRequest) (now : Nat)
    (c : Bool) (st : CacheState) (ch : MCPState) (h : req.xUser = none) :
    (handleQuery chatFull req now c st ch).status = 400
    ∧ (handleQuery chatFull req now c st ch).cache = st
    ∧ (handleQuery chatFull req now c st ch).channel = ch
    ∧ (handleQuery chatFull req now c st ch).dispatched = false
    ∧ (handleStreamQuery chatChunks req now c st ch).status = 400
    ∧ (handleStreamQuery chatChunks req now c st ch).cache = st
    ∧ (handleStreamQuery chatChunks req now c st ch).channel = ch
    ∧ (handleStreamQuery chatChunks req now c st ch).dispatched = false := by
  simp [handleQuery, handleStreamQuery, h]

/-- Witness for C7 at a concrete headerless request. -/
theorem claim7_witness :
    (handleQuery (fun q => q) { query := some "hi", xUser := none } 0 true
        initCache { isConnected := false, clientSet := false }).status = 400
    ∧ (handleQuery (fun q => q) { query := some "hi", xUser := none } 0 true
        initCache { isConnected := false, clientSet := false }).dispatched = false := by
  have h := claim7_missing_header (fun q => q) (fun q => [q])
    { query := some "hi", xUser := none } 0 true initCache
    { isConnected := false, clientSet := false } rfl
  exact ⟨h.1, h.2.2.2.1⟩

/-- C8: under a deterministic model stub whose non-streamed answer is the
concatenation of its streamed chunks (and which streams at least one chunk),
a `POST /stream-query` with a valid session and query answers 200, writes one
`data:` frame per chunk — so at least one frame is emitted before the
connection closes — and the concatenation of all emitted frame bodies equals
the string returned by the non-streamed `queryIndex` path for the same
query. -/
theorem claim8_stream_refines_query (chatFull : String → String)
    (chatChunks : String → List String) (q uid : String) (now : Nat) (c : Bool)
    (st : CacheState) (ch : MCPState)
    (hstub : chatFull q = String.join (chatChunks q))
    (hne : chatChunks q ≠ []) (huid : uid ≠ "") :
    (handleStreamQuery chatChunks { query := some q, xUser := some uid }
        now c st ch).status = 200
    ∧ (handleStreamQuery chatChunks { query := some q, xUser := some uid }
        now c st ch).writes = chatChunks q
    ∧ ((handleStreamQuery chatChunks { query := some q, xUser := some uid }
        now c st ch).writes.map sseWire) ≠ []
    ∧ String.join ((handleStreamQuery chatChunks { query := some q, xUser := some uid }
        now c st ch).writes)
      = (handleQuery chatFull { query := some q, xUser := some uid } now c st ch).body := by
  simp [handleStreamQuery, handleQuery, streamQueryIndex, queryIndex, huid, hstub, hne]

/-- Witness for C8 with the stub streaming `["Hello, ", "world"]` and
answering `"Hello, world"` non-streamed. -/
theorem claim8_witness :
    (handleStreamQuery (fun _ => ["Hello, ", "world"])
        { query := some "hi", xUser := some "alice" } 0 true initCache
        { isConnected := false, clientSet := false }).writes
      = ["Hello, ", "world"]
    ∧ String.join ((handleStreamQuery (fun _ => ["Hello, ", "world"])
        { query := some "hi", xUser := some "alice" } 0 true initCache
        { isConnected := false, clientSet := false }).writes)
      = (handleQuery (fun _ => "Hello, world")
          { query := some "hi", xUser := some "alice" } 0 true initCache
          { isConnected := false, clientSet := false }).body := by
  have h := claim8_stream_refines_query (fun _ => "Hello, world")
    (fun _ => ["Hello, ", "world"]) "hi" "alice" 0 true initCache
    { isConnected := false, clientSet := false } (by decide) (by decide) (by decide)
  exact ⟨h.2.1, h.2.2.2⟩

end Druids
